import Mathlib

/-!
Verification of the `ansible` Dagger module (src/ansible/src/ansible/main.py).

The module wraps an external container-orchestration SDK: `galaxy_install`
builds a container pipeline that installs Ansible Galaxy collections, and
`run_playbook` assembles an `ansible-playbook` argument list, builds a
container pipeline (optionally delegating to `galaxy_install` and optionally
staging an SSH key), executes the list as one exec and returns captured
stdout.

We embed container pipelines as lists of abstract build steps (the SDK's
builder is a pure description that is only interpreted at the final exec),
and the command assembly as a pure list-building function mirroring the
Python statement by statement.
-/

namespace HomelabDaggerverse

/-- Opaque host-SDK handle for a directory (`dagger.Directory`). -/
structure Directory where
  id : Nat
deriving DecidableEq, Repr

/-- Opaque host-SDK handle for a secret (`dagger.Secret`). -/
structure Secret where
  id : Nat
deriving DecidableEq, Repr

/-- One step of a Dagger container build pipeline, as used by this module. -/
inductive ContainerStep where
  | fromImage (image : String)
  | withMountedDirectory (path : String) (dir : Directory)
  | withWorkdir (path : String)
  | withMountedSecret (path : String) (secret : Secret)
  | withExec (args : List String)
deriving DecidableEq, Repr

/-- A container handle is the pipeline of build steps applied so far. -/
abbrev Container := List ContainerStep

/-- The argument list of a step, when the step is an exec. -/
def execArgs : ContainerStep → Option (List String)
  | ContainerStep.withExec args => some args
  | _ => none

/-- The image of the first `from_` step of a pipeline. -/
def pipelineImage : Container → Option String
  | [] => none
  | ContainerStep.fromImage img :: _ => some img
  | _ :: rest => pipelineImage rest

/-- `galaxy_install` (main.py lines 8-30): from `alpine/ansible:latest`,
mount the directory at `/work`, set the workdir, run
`ansible-galaxy collection install -r <requirements_file>`. -/
def galaxy_install (directory : Directory) (requirements_file : String) : Container :=
  [ ContainerStep.fromImage "alpine/ansible:latest",
    ContainerStep.withMountedDirectory "/work" directory,
    ContainerStep.withWorkdir "/work",
    ContainerStep.withExec
      ["ansible-galaxy", "collection", "install", "-r", requirements_file] ]

/-- The Python signature defaults `requirements_file` to `"requirements.yml"`. -/
def galaxy_install_default (directory : Directory) : Container :=
  galaxy_install directory "requirements.yml"

/-- Command assembly of `run_playbook` (main.py lines 57-74), mirroring the
Python statement by statement. Python truthiness: an empty string and an
empty or absent list are falsy, so each guard tests for that. -/
def run_playbook_cmd (playbook inventory : String)
    (extra_vars tags : Option (List String)) : List String :=
  let cmd := ["ansible-playbook"]
  let cmd := if inventory = "" then cmd else cmd ++ ["-i", inventory]
  let cmd :=
    match extra_vars with
    | none => cmd
    | some vs =>
        if vs = [] then cmd
        else vs.foldl (fun c v => c ++ ["--extra-vars", v]) cmd
  let cmd :=
    match tags with
    | none => cmd
    | some ts =>
        if ts = [] then cmd
        else cmd ++ ["--tags", String.intercalate "," ts]
  cmd ++ [playbook]

/-- The base container of `run_playbook` (main.py lines 76-85): delegate to
`galaxy_install` when `requirements_file` is truthy, else the bare image
with the directory mounted at the fixed workdir. -/
def run_playbook_base (directory : Directory) (requirements_file : String) : Container :=
  if requirements_file = "" then
    [ ContainerStep.fromImage "alpine/ansible:latest",
      ContainerStep.withMountedDirectory "/work" directory,
      ContainerStep.withWorkdir "/work" ]
  else
    galaxy_install directory requirements_file

/-- SSH key staging of `run_playbook` (main.py lines 87-96): create
`/root/.ssh`, mount the secret read-only at `/tmp/ssh_key`, copy it to
`/root/.ssh/ansible_id_ecdsa`, chmod 600 the destination. -/
def ssh_key_steps (ssh_private_key : Option Secret) : Container :=
  match ssh_private_key with
  | none => []
  | some key =>
      [ ContainerStep.withExec ["mkdir", "-p", "/root/.ssh"],
        ContainerStep.withMountedSecret "/tmp/ssh_key" key,
        ContainerStep.withExec ["cp", "/tmp/ssh_key", "/root/.ssh/ansible_id_ecdsa"],
        ContainerStep.withExec ["chmod", "600", "/root/.ssh/ansible_id_ecdsa"] ]

/-- The full container pipeline built by one `run_playbook` call, ending in
the single exec of the assembled command (main.py line 99). -/
def run_playbook_pipeline (directory : Directory) (playbook inventory : String)
    (extra_vars tags : Option (List String)) (ssh_private_key : Option Secret)
    (requirements_file : String) : Container :=
  run_playbook_base directory requirements_file
    ++ ssh_key_steps ssh_private_key
    ++ [ContainerStep.withExec (run_playbook_cmd playbook inventory extra_vars tags)]

/-- The value returned by `run_playbook`: the captured standard output of the
final exec of a pipeline (`container.with_exec(cmd).stdout()`). -/
inductive RunResult where
  | stdoutOf (pipeline : Container)
deriving DecidableEq, Repr

/-- `run_playbook` (main.py lines 32-99): build the command, build the
pipeline, exec once, return captured stdout. -/
def run_playbook (directory : Directory) (playbook inventory : String)
    (extra_vars tags : Option (List String)) (ssh_private_key : Option Secret)
    (requirements_file : String) : RunResult :=
  RunResult.stdoutOf
    (run_playbook_pipeline directory playbook inventory extra_vars tags
      ssh_private_key requirements_file)

/-- The flag list the spec describes for extra vars: one `--extra-vars` flag
per entry, input order preserved. -/
def extraVarFlags : List String → List String
  | [] => []
  | v :: vs => "--extra-vars" :: v :: extraVarFlags vs

/-- A call record for `run_playbook`, used to state history independence. -/
structure RunArgs where
  directory : Directory
  playbook : String
  inventory : String
  extra_vars : Option (List String)
  tags : Option (List String)
  ssh_private_key : Option Secret
  requirements_file : String
deriving DecidableEq, Repr

/-- One wrapper call on a call record. -/
def runCall (a : RunArgs) : RunResult :=
  run_playbook a.directory a.playbook a.inventory a.extra_vars a.tags
    a.ssh_private_key a.requirements_file

/-- A sequence of independent wrapper calls: the module class holds no
instance state, so consecutive calls are simply mapped. -/
def runSequence (calls : List RunArgs) : List RunResult :=
  calls.map runCall

/-- A sequence of independent `galaxy_install` calls. -/
def galaxySequence (calls : List (Directory × String)) : List Container :=
  calls.map (fun p => galaxy_install p.1 p.2)

section Lemmas

/-- The Python for-loop over extra vars appends exactly the spec's flag list. -/
theorem foldl_extra_vars (vs : List String) (c : List String) :
    vs.foldl (fun acc v => acc ++ ["--extra-vars", v]) c = c ++ extraVarFlags vs := by
  induction vs generalizing c with
  | nil => simp [extraVarFlags]
  | cons v vs ih => simp [extraVarFlags, ih]

/-- Normal form of the assembled command. -/
theorem run_playbook_cmd_eq (pb inv : String) (ev tg : Option (List String)) :
    run_playbook_cmd pb inv ev tg =
      ["ansible-playbook"]
        ++ (if inv = "" then [] else ["-i", inv])
        ++ extraVarFlags (ev.getD [])
        ++ (if tg.getD [] = [] then []
            else ["--tags", String.intercalate "," (tg.getD [])])
        ++ [pb] := by
  rcases ev with _ | vs <;> rcases tg with _ | ts
  · by_cases hinv : inv = "" <;>
      simp [run_playbook_cmd, hinv, extraVarFlags]
  · by_cases hinv : inv = "" <;> by_cases hts : ts = [] <;>
      simp [run_playbook_cmd, hinv, hts, extraVarFlags]
  · by_cases hinv : inv = "" <;> by_cases hvs : vs = [] <;>
      simp [run_playbook_cmd, hinv, hvs, foldl_extra_vars, extraVarFlags]
  · by_cases hinv : inv = "" <;> by_cases hvs : vs = [] <;> by_cases hts : ts = [] <;>
      simp [run_playbook_cmd, hinv, hvs, hts, foldl_extra_vars, extraVarFlags]

/-- The assembled command always starts with the program name. -/
theorem run_playbook_cmd_head (pb inv : String) (ev tg : Option (List String)) :
    ∃ rest, run_playbook_cmd pb inv ev tg = "ansible-playbook" :: rest := by
  refine ⟨(if inv = "" then [] else ["-i", inv])
      ++ extraVarFlags (ev.getD [])
      ++ (if tg.getD [] = [] then []
          else ["--tags", String.intercalate "," (tg.getD [])])
      ++ [pb], ?_⟩
  rw [run_playbook_cmd_eq]
  simp

/-- Elements of the spec flag list are the flag itself or an input entry. -/
theorem mem_extraVarFlags (x : String) (vs : List String) :
    x ∈ extraVarFlags vs → x = "--extra-vars" ∨ x ∈ vs := by
  induction vs with
  | nil => simp [extraVarFlags]
  | cons v vs ih =>
      intro hx
      simp only [extraVarFlags, List.mem_cons] at hx
      rcases hx with h | h | h
      · exact Or.inl h
      · exact Or.inr (by simp [h])
      · rcases ih h with h' | h'
        · exact Or.inl h'
        · exact Or.inr (List.mem_cons_of_mem _ h')

end Lemmas

/-- C1: for every call to `run_playbook`, the executed argument list is exactly
`["ansible-playbook"]`, then `["-i", inventory]` if inventory is non-empty, then
`["--extra-vars", v]` for each entry `v` of extra_vars in input order (one flag
per entry), then `["--tags", <comma-joined tags>]` if tags is non-empty, and
finally the playbook path as the last element. -/
theorem C1_command_assembly (d : Directory) (pb inv : String)
    (ev tg : Option (List String)) (ssh : Option Secret) (req : String) :
    run_playbook d pb inv ev tg ssh req =
      RunResult.stdoutOf
        (run_playbook_base d req ++ ssh_key_steps ssh ++
          [ContainerStep.withExec
            (["ansible-playbook"]
              ++ (if inv = "" then [] else ["-i", inv])
              ++ extraVarFlags (ev.getD [])
              ++ (if tg.getD [] = [] then []
                  else ["--tags", String.intercalate "," (tg.getD [])])
              ++ [pb])]) := by
  rw [run_playbook, run_playbook_pipeline, run_playbook_cmd_eq]

/-- C6: for every directory and requirements file (defaulting to
`requirements.yml`), `galaxy_install` returns a pipeline that starts from the
image `alpine/ansible:latest`, mounts the directory at the fixed workdir
`/work`, sets that workdir, and executes exactly
`["ansible-galaxy", "collection", "install", "-r", requirements_file]`,
with no other step (hence no validation of the file) before the single exec. -/
theorem C6_galaxy_install_pipeline (d : Directory) (req : String) :
    galaxy_install d req =
      [ ContainerStep.fromImage "alpine/ansible:latest",
        ContainerStep.withMountedDirectory "/work" d,
        ContainerStep.withWorkdir "/work",
        ContainerStep.withExec
          ["ansible-galaxy", "collection", "install", "-r", req] ] ∧
    galaxy_install_default d = galaxy_install d "requirements.yml" ∧
    (galaxy_install d req).countP (fun s => (execArgs s).isSome) = 1 ∧
    (galaxy_install d req).getLast? =
      some (ContainerStep.withExec
        ["ansible-galaxy", "collection", "install", "-r", req]) := by
  refine ⟨rfl, rfl, ?_, rfl⟩
  simp [galaxy_install, List.countP_cons, execArgs]

/-- C9: tags are joined with a comma and no escaping, so `run_playbook` cannot
distinguish tag lists with the same comma-join; in particular the distinct
non-empty lists `["a,b"]` and `["a", "b"]` yield identical commands and
identical call results. -/
theorem C9_tags_join_ambiguity (pb inv : String) (ev : Option (List String))
    (ts₁ ts₂ : List String) :
    (String.intercalate "," ts₁ = String.intercalate "," ts₂ →
      (ts₁ = [] ↔ ts₂ = []) →
      run_playbook_cmd pb inv ev (some ts₁) = run_playbook_cmd pb inv ev (some ts₂)) ∧
    ((["a,b"] : List String) ≠ ["a", "b"] ∧
      run_playbook_cmd "site.yml" "" none (some ["a,b"]) =
        run_playbook_cmd "site.yml" "" none (some ["a", "b"]) ∧
      run_playbook ⟨0⟩ "site.yml" "" none (some ["a,b"]) none "" =
        run_playbook ⟨0⟩ "site.yml" "" none (some ["a", "b"]) none "") := by
  refine ⟨fun hj hiff => ?_, by decide, by decide, ?_⟩
  · rw [run_playbook_cmd_eq, run_playbook_cmd_eq]
    rcases eq_or_ne ts₁ [] with h1 | h1
    · simp [h1, hiff.mp h1]
    · have h2 : ts₂ ≠ [] := fun h => h1 (hiff.mpr h)
      simp [h1, h2, hj]
  · rw [run_playbook, run_playbook, run_playbook_pipeline, run_playbook_pipeline]
    have : run_playbook_cmd "site.yml" "" none (some ["a,b"]) =
        run_playbook_cmd "site.yml" "" none (some ["a", "b"]) := by decide
    rw [this]

/-- C9 witness: the general indistinguishability applied to the concrete pair
from the claim. -/
theorem C9_tags_join_ambiguity_witness :
    run_playbook_cmd "site.yml" "hosts.ini" (some ["k=v"]) (some ["a,b"]) =
      run_playbook_cmd "site.yml" "hosts.ini" (some ["k=v"]) (some ["a", "b"]) :=
  (C9_tags_join_ambiguity "site.yml" "hosts.ini" (some ["k=v"]) ["a,b"] ["a", "b"]).1
    (by decide) (by decide)

/-- C10: in every `run_playbook` invocation, on both the requirements-file
branch and the bare-image branch, the pipeline starts with the image, the
directory mounted at `/work` and the workdir set to `/work`, and no exec step
occurs among those first three steps. -/
theorem C10_work_mount_invariant (d : Directory) (pb inv : String)
    (ev tg : Option (List String)) (ssh : Option Secret) (req : String) :
    (run_playbook_pipeline d pb inv ev tg ssh req).take 3 =
      [ ContainerStep.fromImage "alpine/ansible:latest",
        ContainerStep.withMountedDirectory "/work" d,
        ContainerStep.withWorkdir "/work" ] ∧
    ((run_playbook_pipeline d pb inv ev tg ssh req).take 3).countP
      (fun s => (execArgs s).isSome) = 0 := by
  rcases eq_or_ne req "" with hreq | hreq <;>
    simp [run_playbook_pipeline, run_playbook_base, galaxy_install, hreq,
      List.countP_cons, execArgs]

/-- C2: with a non-empty requirements file the base container of
`run_playbook` is exactly the pipeline returned by `galaxy_install` (same
image, mount, workdir, plus the galaxy install exec), so the Installer's image
equals the Runner's base image and the collection-install step precedes the
playbook exec; with an empty requirements file the base is the bare image with
the directory mounted at the fixed workdir and no galaxy exec. -/
theorem C2_requirements_branch (d : Directory) (pb inv : String)
    (ev tg : Option (List String)) (ssh : Option Secret) (req : String) :
    (req ≠ "" →
      run_playbook_base d req = galaxy_install d req ∧
      pipelineImage (run_playbook_base d req) = pipelineImage (galaxy_install d req) ∧
      ∃ i j, i < j ∧
        (run_playbook_pipeline d pb inv ev tg ssh req).get? i =
          some (ContainerStep.withExec
            ["ansible-galaxy", "collection", "install", "-r", req]) ∧
        (run_playbook_pipeline d pb inv ev tg ssh req).get? j =
          some (ContainerStep.withExec (run_playbook_cmd pb inv ev tg))) ∧
    (req = "" →
      run_playbook_base d req =
        [ ContainerStep.fromImage "alpine/ansible:latest",
          ContainerStep.withMountedDirectory "/work" d,
          ContainerStep.withWorkdir "/work" ] ∧
      (run_playbook_base d req).countP (fun s => (execArgs s).isSome) = 0) := by
  refine ⟨fun hreq => ⟨?_, ?_, ?_⟩, fun hreq => ⟨?_, ?_⟩⟩
  · simp [run_playbook_base, hreq]
  · simp [run_playbook_base, hreq]
  · rcases ssh with _ | k
    · refine ⟨3, 4, by norm_num, ?_, ?_⟩ <;>
        simp [run_playbook_pipeline, run_playbook_base, hreq, ssh_key_steps,
          galaxy_install]
    · refine ⟨3, 8, by norm_num, ?_, ?_⟩ <;>
        simp [run_playbook_pipeline, run_playbook_base, hreq, ssh_key_steps,
          galaxy_install]
  · simp [run_playbook_base, hreq]
  · simp [run_playbook_base, hreq, List.countP_cons, execArgs]

/-- C2 witness: both branches at concrete arguments. -/
theorem C2_requirements_branch_witness :
    run_playbook_base ⟨0⟩ "requirements.yml" = galaxy_install ⟨0⟩ "requirements.yml" ∧
    run_playbook_base ⟨0⟩ "" =
      [ ContainerStep.fromImage "alpine/ansible:latest",
        ContainerStep.withMountedDirectory "/work" ⟨0⟩,
        ContainerStep.withWorkdir "/work" ] :=
  ⟨((C2_requirements_branch ⟨0⟩ "site.yml" "" none none none
      "requirements.yml").1 (by decide)).1,
   ((C2_requirements_branch ⟨0⟩ "site.yml" "" none none none "").2 rfl).1⟩

/-- C3: with an SSH private key provided, the pipeline performs, in this order
and before the final playbook exec: create `/root/.ssh`, place the secret at
the read-only staging path `/tmp/ssh_key` (a secret mount), copy the staging
file to `/root/.ssh/ansible_id_ecdsa`, then chmod 600 that destination. -/
theorem C3_ssh_key_staging (d : Directory) (pb inv : String)
    (ev tg : Option (List String)) (k : Secret) (req : String) :
    run_playbook_pipeline d pb inv ev tg (some k) req =
      run_playbook_base d req ++
        [ ContainerStep.withExec ["mkdir", "-p", "/root/.ssh"],
          ContainerStep.withMountedSecret "/tmp/ssh_key" k,
          ContainerStep.withExec ["cp", "/tmp/ssh_key", "/root/.ssh/ansible_id_ecdsa"],
          ContainerStep.withExec ["chmod", "600", "/root/.ssh/ansible_id_ecdsa"] ] ++
      [ContainerStep.withExec (run_playbook_cmd pb inv ev tg)] ∧
    (run_playbook_pipeline d pb inv ev tg (some k) req).getLast? =
      some (ContainerStep.withExec (run_playbook_cmd pb inv ev tg)) := by
  refine ⟨rfl, ?_⟩
  simp [run_playbook_pipeline, List.getLast?_concat]

/-- C7: the assembled argument list is executed as exactly one process
invocation: the whole list occurs as one exec step exactly once, that step is
the final step of the pipeline, and the function's return value is the
captured standard output of that pipeline. -/
theorem C7_single_exec (d : Directory) (pb inv : String)
    (ev tg : Option (List String)) (ssh : Option Secret) (req : String) :
    run_playbook d pb inv ev tg ssh req =
      RunResult.stdoutOf (run_playbook_pipeline d pb inv ev tg ssh req) ∧
    (run_playbook_pipeline d pb inv ev tg ssh req).getLast? =
      some (ContainerStep.withExec (run_playbook_cmd pb inv ev tg)) ∧
    (run_playbook_pipeline d pb inv ev tg ssh req).countP
      (fun s => decide (s = ContainerStep.withExec (run_playbook_cmd pb inv ev tg))) =
      1 := by
  obtain ⟨rest, hc⟩ := run_playbook_cmd_head pb inv ev tg
  refine ⟨rfl, by simp [run_playbook_pipeline, List.getLast?_concat], ?_⟩
  rcases eq_or_ne req "" with hreq | hreq <;> rcases ssh with _ | k <;>
    simp [run_playbook_pipeline, run_playbook_base, galaxy_install, ssh_key_steps,
      hreq, hc, List.countP_append, List.countP_cons]

/-- C4 as frozen is false: with tags the empty list the builder adds nothing,
but the emitted command can still contain the literal string `--tags` when
another argument is that literal; here the playbook path itself is `--tags`. -/
theorem C4_counterexample :
    run_playbook_cmd "--tags" "" none (some []) =
      run_playbook_cmd "--tags" "" none none ∧
    "--tags" ∈ run_playbook_cmd "--tags" "" none (some []) := by
  exact ⟨by decide, by decide⟩

/-- C4 (amended): an empty tags list builds exactly the same command as
omitted tags; and the emitted command contains no `--tags` element provided
the playbook, the inventory, and the extra-vars entries are not themselves the
literal string `--tags`. -/
theorem C4_empty_tags (pb inv : String) (ev : Option (List String)) :
    run_playbook_cmd pb inv ev (some []) = run_playbook_cmd pb inv ev none ∧
    (pb ≠ "--tags" → inv ≠ "--tags" → "--tags" ∉ ev.getD [] →
      "--tags" ∉ run_playbook_cmd pb inv ev (some [])) := by
  constructor
  · rw [run_playbook_cmd_eq, run_playbook_cmd_eq]
    simp
  · intro hpb hinv hev
    have h1 : "--tags" ∉ extraVarFlags (ev.getD []) := by
      intro hx
      rcases mem_extraVarFlags _ _ hx with h | h
      · exact absurd h (by decide)
      · exact hev h
    have hA : "--tags" ≠ "ansible-playbook" := by decide
    have hB : "--tags" ≠ "-i" := by decide
    rw [run_playbook_cmd_eq]
    rcases eq_or_ne inv "" with h | h <;>
      simp [h, h1, hpb.symm, hinv.symm, hA, hB]

/-- C4 witness: the amended claim at concrete arguments. -/
theorem C4_empty_tags_witness :
    run_playbook_cmd "site.yml" "hosts.ini" (some ["k=v"]) (some []) =
      run_playbook_cmd "site.yml" "hosts.ini" (some ["k=v"]) none ∧
    "--tags" ∉ run_playbook_cmd "site.yml" "hosts.ini" (some ["k=v"]) (some []) :=
  ⟨(C4_empty_tags "site.yml" "hosts.ini" (some ["k=v"])).1,
   (C4_empty_tags "site.yml" "hosts.ini" (some ["k=v"])).2
     (by decide) (by decide) (by decide)⟩

/-- C5 as frozen is false: with inventory unset the builder adds no `-i`, but
the emitted command can still contain the literal string `-i` when another
argument is that literal; here the playbook path itself is `-i`. -/
theorem C5_counterexample :
    "-i" ∈ run_playbook_cmd "-i" "" none none := by
  decide

/-- C5 (amended): with inventory unset (the empty string) the builder appends
no inventory flag or argument, and the emitted command contains no `-i`
element provided the playbook, the extra-vars entries, and the comma-joined
tags string are not themselves the literal string `-i`. -/
theorem C5_no_inventory (pb : String) (ev tg : Option (List String)) :
    run_playbook_cmd pb "" ev tg =
      ["ansible-playbook"]
        ++ extraVarFlags (ev.getD [])
        ++ (if tg.getD [] = [] then []
            else ["--tags", String.intercalate "," (tg.getD [])])
        ++ [pb] ∧
    (pb ≠ "-i" → "-i" ∉ ev.getD [] →
      String.intercalate "," (tg.getD []) ≠ "-i" →
      "-i" ∉ run_playbook_cmd pb "" ev tg) := by
  constructor
  · rw [run_playbook_cmd_eq]
    simp
  · intro hpb hev htg
    have h1 : "-i" ∉ extraVarFlags (ev.getD []) := by
      intro hx
      rcases mem_extraVarFlags _ _ hx with h | h
      · exact absurd h (by decide)
      · exact hev h
    have hA : "-i" ≠ "ansible-playbook" := by decide
    have hB : "-i" ≠ "--tags" := by decide
    rw [run_playbook_cmd_eq]
    rcases eq_or_ne (tg.getD []) [] with h | h <;>
      simp [h, h1, hpb.symm, htg.symm, hA, hB]

/-- C5 witness: the amended claim at concrete arguments. -/
theorem C5_no_inventory_witness :
    run_playbook_cmd "site.yml" "" (some ["k=v"]) (some ["web"]) =
      ["ansible-playbook", "--extra-vars", "k=v", "--tags", "web", "site.yml"] ∧
    "-i" ∉ run_playbook_cmd "site.yml" "" (some ["k=v"]) (some ["web"]) := by
  have h := C5_no_inventory "site.yml" (some ["k=v"]) (some ["web"])
  refine ⟨?_, h.2 (by decide) (by decide) (by decide)⟩
  rw [h.1]
  decide

/-- C8: `run_playbook` and `galaxy_install` are deterministic pure functions
of their arguments at the wrapper level: in any sequence of calls, the result
of a call depends only on its own arguments and not on the call history, and
a call with given arguments always yields the same pipeline. -/
theorem C8_wrapper_purity (pre₁ pre₂ : List RunArgs) (a : RunArgs)
    (qpre₁ qpre₂ : List (Directory × String)) (b : Directory × String) :
    (runSequence (pre₁ ++ [a])).getLast? = (runSequence (pre₂ ++ [a])).getLast? ∧
    (galaxySequence (qpre₁ ++ [b])).getLast? =
      (galaxySequence (qpre₂ ++ [b])).getLast? ∧
    (runSequence (pre₁ ++ [a])).getLast? = some (runCall a) ∧
    (galaxySequence (qpre₁ ++ [b])).getLast? = some (galaxy_install b.1 b.2) := by
  simp [runSequence, galaxySequence, List.getLast?_concat]

end HomelabDaggerverse
